import Mathlib

/-!
Verification of the m365-collaboration agent message coordination engine
(`collaboration.py` and `cli.py`) against its natural-language specification.

The Python code is shallowly embedded: JSON values are an inductive type,
Python dicts are insertion-ordered association lists with unique keys,
Python exceptions are an explicit error type threaded through `Except`,
and every remote (Graph API) response consumed by an operation is passed
in as an explicit argument.  The sequence of store requests an operation
issues is returned alongside its result so that claims about call order
can be stated.
-/

set_option autoImplicit false

/-- JSON values as stored in the collaboration folder.  Objects are
insertion-ordered association lists, matching Python dict semantics for
the duplicate-free dicts this program produces.  Numbers are modelled as
integers; no claim depends on non-integer numerics. -/
inductive Json where
  | null : Json
  | bool : Bool → Json
  | num : Int → Json
  | str : String → Json
  | arr : List Json → Json
  | obj : List (String × Json) → Json

/-- Python exceptions that the embedded code can raise.  `typeError`
covers `TypeError`/`AttributeError`-class failures from subscripting or
calling methods on a value of the wrong runtime type;
`jsonDecodeError` is `json.JSONDecodeError`; `runtimeError` is the
`RuntimeError` raised by `post_message` on a failed store write. -/
inductive PyErr where
  | jsonDecodeError : PyErr
  | keyError : String → PyErr
  | typeError : PyErr
  | runtimeError : String → PyErr
  deriving DecidableEq, Repr

/-- Store requests an orchestrator operation issues, in order.
`ensureFolder` is the `_ensure_folder` POST; `putContent f` is a PUT of
file `f` in the `AgentMessages` folder; `getContent f` is a GET of file
`f`'s content; `listChildren` is the folder listing GET. -/
inductive Request where
  | ensureFolder : Request
  | putContent : String → Request
  | getContent : String → Request
  | listChildren : Request
  deriving DecidableEq, Repr

/-- Lookup of `data[k]` on a Python value parsed from JSON: a `KeyError`
when `data` is a dict without key `k`, a `TypeError` when `data` is not
a dict at all. -/
def pyGetItem (data : Json) (k : String) : Except PyErr Json :=
  match data with
  | .obj d =>
    match d.lookup k with
    | some v => .ok v
    | none => .error (.keyError k)
  | _ => .error .typeError

/-- Lookup of `data.get(k, dflt)` on a Python dict; non-dicts give the
`AttributeError`-class failure (modelled as `typeError`). -/
def pyGet (data : Json) (k : String) (dflt : Json) : Except PyErr Json :=
  match data with
  | .obj d => .ok ((d.lookup k).getD dflt)
  | _ => .error .typeError

/-- AgentMessage dataclass from `collaboration.py`.  Field values are
JSON values because `from_dict` performs no type validation: a stored
object with, say, a numeric `title` decodes without error, so a faithful
embedding cannot force string-typed fields. -/
structure AgentMessage where
  id : Json
  timestamp : Json
  agent_id : Json
  message_type : Json
  title : Json
  content : Json
  priority : Json
  status : Json
  context : Json
  in_reply_to : Json

/-- AgentMessage.to_dict: the full ten-key JSON object, in source field
order. -/
def AgentMessage.to_dict (m : AgentMessage) : Json :=
  .obj [
    ("id", m.id),
    ("timestamp", m.timestamp),
    ("agent_id", m.agent_id),
    ("message_type", m.message_type),
    ("title", m.title),
    ("content", m.content),
    ("priority", m.priority),
    ("status", m.status),
    ("context", m.context),
    ("in_reply_to", m.in_reply_to)]

/-- AgentMessage.from_dict: required fields are read with `data[...]`
(raising `KeyError` when absent from a dict, `TypeError` when `data` is
not a dict), optional fields with `data.get(...)` and the defaults
`priority="normal"`, `status="pending"`, `context={}`,
`in_reply_to=None`.  Reads occur in the keyword-argument order of the
Python constructor call. -/
def AgentMessage.from_dict (data : Json) : Except PyErr AgentMessage := do
  let i ← pyGetItem data "id"
  let ts ← pyGetItem data "timestamp"
  let ag ← pyGetItem data "agent_id"
  let mt ← pyGetItem data "message_type"
  let ti ← pyGetItem data "title"
  let co ← pyGetItem data "content"
  let pr ← pyGet data "priority" (.str "normal")
  let st ← pyGet data "status" (.str "pending")
  let cx ← pyGet data "context" (.obj [])
  let ir ← pyGet data "in_reply_to" .null
  return ⟨i, ts, ag, mt, ti, co, pr, st, cx, ir⟩

/-- Decoding the encoded form of any message gives the message back:
`to_dict` always writes all ten keys, and `from_dict` reads each one.
The `json.dumps`/`json.loads` pair between the two is the identity at
the level of JSON values and is modelled as such. -/
theorem AgentMessage.from_dict_to_dict (m : AgentMessage) :
    AgentMessage.from_dict m.to_dict = .ok m := by
  cases m
  rfl

/-- Python dict assignment `d[k] = v` on an insertion-ordered,
duplicate-free association list: replace the value in place when the key
exists, append otherwise. -/
def dictInsert : List (String × Json) → String → Json → List (String × Json)
  | [], k, v => [(k, v)]
  | (k₁, v₁) :: t, k, v =>
    if k₁ = k then (k, v) :: t else (k₁, v₁) :: dictInsert t k v

/-- Python `d.update(cu)`: assign each key of `cu` into `d`, in order. -/
def dictUpdate (d cu : List (String × Json)) : List (String × Json) :=
  cu.foldl (fun acc p => dictInsert acc p.1 p.2) d

/-- Lookup in the dict field of a JSON object; `none` on non-objects. -/
def jlookup (j : Json) (k : String) : Option Json :=
  match j with
  | .obj d => d.lookup k
  | _ => none

theorem lookup_cons_eq_ite (k₁ k' : String) (v₁ : Json) (t : List (String × Json)) :
    ((k₁, v₁) :: t).lookup k' = if k' = k₁ then some v₁ else t.lookup k' := by
  rw [List.lookup_cons]
  by_cases h : k' = k₁
  · subst h; simp
  · have hb : (k' == k₁) = false := by simpa using h
    simp [hb, h]

theorem lookup_dictInsert (d : List (String × Json)) (k : String) (v : Json)
    (k' : String) :
    (dictInsert d k v).lookup k' = if k' = k then some v else d.lookup k' := by
  induction d with
  | nil =>
    simp only [dictInsert, lookup_cons_eq_ite, List.lookup_nil]
  | cons p t ih =>
    obtain ⟨k₁, v₁⟩ := p
    simp only [dictInsert]
    by_cases h₁ : k₁ = k
    · subst h₁
      rw [if_pos rfl]
      by_cases h : k' = k₁ <;> simp [lookup_cons_eq_ite, h]
    · simp only [if_neg h₁, lookup_cons_eq_ite, ih]
      by_cases h₂ : k' = k₁
      · have hne : ¬ k' = k := by rw [h₂]; exact h₁
        simp [h₂, hne, h₁]
      · simp [h₂]

theorem lookup_dictUpdate (cu : List (String × Json)) (d : List (String × Json))
    (k : String) :
    (dictUpdate d cu).lookup k =
      match (cu.reverse.find? (fun p => p.1 = k)) with
      | some p => some p.2
      | none => d.lookup k := by
  induction cu generalizing d with
  | nil => simp [dictUpdate]
  | cons p t ih =>
    obtain ⟨k₁, v₁⟩ := p
    have step : dictUpdate d ((k₁, v₁) :: t) = dictUpdate (dictInsert d k₁ v₁) t := rfl
    rw [step, ih]
    simp only [List.reverse_cons, List.find?_append]
    cases hfind : t.reverse.find? (fun p => p.1 = k) with
    | some q => simp [hfind]
    | none =>
      simp only [hfind, Option.none_or]
      rw [lookup_dictInsert]
      by_cases hk : k = k₁ <;> simp [hk, List.find?, Eq.comm]

theorem isSome_lookup_dictUpdate (cu d : List (String × Json)) (k : String)
    (h : (d.lookup k).isSome) : ((dictUpdate d cu).lookup k).isSome := by
  rw [lookup_dictUpdate]
  cases hfind : cu.reverse.find? (fun p => p.1 = k) <;> simp_all

/-- Python truthiness of an optional string argument: `None` and the
empty string are falsy. -/
def pyTruthy (s : Option String) : Bool :=
  match s with
  | some t => t ≠ ""
  | none => false

/-- Python `context or {}` for an `Optional[dict]` parameter: `None`
and the (falsy) empty dict both give `{}`. -/
def pyOrEmptyObj (c : Option Json) : Json :=
  match c with
  | none => .obj []
  | some (.obj []) => .obj []
  | some v => v

theorem pyOrEmptyObj_obj (l : List (String × Json)) :
    pyOrEmptyObj (some (.obj l)) = .obj l := by
  cases l <;> rfl

/-- Python `value != s` for a string `s` and a decoded JSON `value`,
negated: true exactly when `value` is the string `s`. -/
def jsonEqStr (j : Json) (s : String) : Bool :=
  match j with
  | .str t => t = s
  | _ => false

/-- Python `s.endswith(suffix)`. -/
def pyEndsWith (s sfx : String) : Bool :=
  sfx.data.isSuffixOf s.data

theorem pyEndsWith_append (a b : String) : pyEndsWith (a ++ b) b = true := by
  have h : (a ++ b).data = a.data ++ b.data := by
    cases a; cases b; rfl
  simp [pyEndsWith, h]

/-!
Orchestrator operations from `AgentCollaboration`.  Effects are made
explicit: fresh ids and timestamps are parameters, and every remote
response an operation consumes is a parameter (`… Status : Nat` for an
HTTP status code, a `Option Json` body for content that may fail JSON
parsing; `none` models a body `json.loads` rejects).  Each operation
returns its Python result (with raised exceptions as `Except.error`)
paired with the ordered list of store requests it issued.
-/

/-- The `_ensure_folder` step logs a warning exactly when the folder
creation POST returns a status other than 200, 201 or 409; it never
raises, and in particular 409 ("already exists") is silently accepted. -/
def ensure_folder_warns (status : Nat) : Bool :=
  !(status == 200 || status == 201 || status == 409)

/-- Filename normalization shared by `get_message` and
`update_message_status`: append `".json"` unless the id already ends
with it. -/
def normalizeFilename (message_id : String) : String :=
  if pyEndsWith message_id ".json" then message_id else message_id ++ ".json"

/-- AgentCollaboration.post_message.  Python parameter defaults are
`message_type="message"`, `priority="normal"`, `context=None`,
`in_reply_to=None`.  The ensure-folder POST status is consumed (only a
log depends on it); a PUT status outside {200, 201} raises
`RuntimeError`, otherwise the constructed message is returned without
re-reading the store. -/
def post_message (agent msgId ts title content message_type priority : String)
    (context : Option Json) (in_reply_to : Json)
    (ensureStatus putStatus : Nat) :
    Except PyErr AgentMessage × List Request :=
  let msg : AgentMessage := {
    id := .str msgId,
    timestamp := .str ts,
    agent_id := .str agent,
    message_type := .str message_type,
    title := .str title,
    content := .str content,
    priority := .str priority,
    status := .str (if message_type = "task" then "pending" else "completed"),
    context := pyOrEmptyObj context,
    in_reply_to := in_reply_to }
  (if putStatus = 200 ∨ putStatus = 201 then .ok msg
   else .error (.runtimeError "Failed to post message"),
   [.ensureFolder, .putContent (msgId ++ ".json")])

/-- AgentCollaboration.get_message: fetch by normalized filename; a
non-200 GET yields `None`; a 200 body that is not JSON raises
`json.JSONDecodeError`, and otherwise the body is decoded with
`from_dict` (whose `KeyError`/`TypeError` propagate out uncaught). -/
def get_message (message_id : String) (getStatus : Nat) (getBody : Option Json) :
    Except PyErr (Option AgentMessage) × List Request :=
  let fn := normalizeFilename message_id
  (if getStatus = 200 then
    match getBody with
    | none => .error .jsonDecodeError
    | some data => (AgentMessage.from_dict data).map some
   else .ok none,
   [.getContent fn])

/-- AgentCollaboration.update_message_status: read-modify-write.  The
fetched message's status and timestamp are overwritten; a truthy
`context_update` is shallow-merged into `context` via `dict.update`
(raising the `AttributeError`-class failure when the decoded context is
not a dict); the whole object is written back to the normalized
filename; a PUT status outside {200, 201} yields `None`.  No
ensure-folder step is performed. -/
def update_message_status (message_id status : String)
    (context_update : Option (List (String × Json))) (now : String)
    (getStatus : Nat) (getBody : Option Json) (putStatus : Nat) :
    Except PyErr (Option AgentMessage) × List Request :=
  let fn := normalizeFilename message_id
  match (get_message message_id getStatus getBody).1 with
  | .error e => (.error e, [.getContent fn])
  | .ok none => (.ok none, [.getContent fn])
  | .ok (some msg0) =>
    let msg1 : AgentMessage :=
      { msg0 with status := .str status, timestamp := .str now }
    let merged : Except PyErr AgentMessage :=
      match context_update with
      | none => .ok msg1
      | some [] => .ok msg1
      | some cu =>
        match msg1.context with
        | .obj d => .ok { msg1 with context := .obj (dictUpdate d cu) }
        | _ => .error .typeError
    match merged with
    | .error e => (.error e, [.getContent fn])
    | .ok msg2 =>
      (if putStatus = 200 ∨ putStatus = 201 then .ok (some msg2) else .ok none,
       [.getContent fn, .putContent fn])

/-- AgentCollaboration.post_task. -/
def post_task (agent msgId ts title description priority : String)
    (context : Option Json) (ensureStatus putStatus : Nat) :
    Except PyErr AgentMessage × List Request :=
  post_message agent msgId ts title description "task" priority context .null
    ensureStatus putStatus

/-- AgentCollaboration.post_status: `in_reply_to` is the optional
task id. -/
def post_status (agent msgId ts title status_text : String)
    (task_id : Option String) (ensureStatus putStatus : Nat) :
    Except PyErr AgentMessage × List Request :=
  post_message agent msgId ts title status_text "status" "normal" none
    (match task_id with | some t => .str t | none => .null)
    ensureStatus putStatus

/-- AgentCollaboration.post_handoff: copies the caller's context, sets
`context["target_agent"]` only when the argument is truthy (a non-empty
string), and posts with type `handoff` and priority `high`. -/
def post_handoff (agent msgId ts title description : String)
    (context : List (String × Json)) (target_agent : Option String)
    (ensureStatus putStatus : Nat) :
    Except PyErr AgentMessage × List Request :=
  let ctx : List (String × Json) :=
    match target_agent with
    | some t => if t = "" then context else dictInsert context "target_agent" (.str t)
    | none => context
  post_message agent msgId ts title description "handoff" "high"
    (some (.obj ctx)) .null ensureStatus putStatus

/-- AgentCollaboration.claim_task: `claimedAt` is the timestamp taken
when building the context patch, `now` the one taken inside
`update_message_status`. -/
def claim_task (agent task_id claimedAt now : String)
    (getStatus : Nat) (getBody : Option Json) (putStatus : Nat) :
    Except PyErr (Option AgentMessage) × List Request :=
  update_message_status task_id "in_progress"
    (some [("claimed_by", .str agent), ("claimed_at", .str claimedAt)])
    now getStatus getBody putStatus

/-- Entry of the folder-listing response, as consumed by
`get_messages`: the item name, whether a truthy
`@microsoft.graph.downloadUrl` is present, and the status and body of
the download that is issued when it is (`contentBody = none` models a
200 body that `json.loads` rejects). -/
structure ListEntry where
  name : String
  hasDownloadUrl : Bool
  contentStatus : Nat
  contentBody : Option Json

/-- Filter mismatch test from `get_messages`: Python
`if message_type and msg.message_type != message_type: continue`
skips a decoded message when the filter argument is truthy and the
decoded field differs from it (a non-string decoded field always
differs from a string). -/
def filterMismatch (filt : Option String) (v : Json) : Bool :=
  match filt with
  | some s => if s = "" then false else !(jsonEqStr v s)
  | none => false

/-- Per-entry loop of `get_messages`.  Non-`.json` names, entries
without a download URL and non-200 downloads are skipped silently;
`json.JSONDecodeError` and `KeyError` during decode are caught and
logged per item; any other exception (notably the `TypeError` from
`from_dict` on a non-object JSON body) propagates and aborts the whole
loop. -/
def messagesLoop (message_type status : Option String) :
    List ListEntry → Except PyErr (List AgentMessage)
  | [] => .ok []
  | e :: rest =>
    if !(pyEndsWith e.name ".json") then messagesLoop message_type status rest
    else if !e.hasDownloadUrl then messagesLoop message_type status rest
    else if e.contentStatus ≠ 200 then messagesLoop message_type status rest
    else
      let step : Except PyErr (Option AgentMessage) :=
        match e.contentBody with
        | none => .error .jsonDecodeError
        | some data =>
          match AgentMessage.from_dict data with
          | .error err => .error err
          | .ok msg =>
            if filterMismatch message_type msg.message_type then .ok none
            else if filterMismatch status msg.status then .ok none
            else .ok (some msg)
      match step with
      | .error .jsonDecodeError => messagesLoop message_type status rest
      | .error (.keyError _) => messagesLoop message_type status rest
      | .error err => .error err
      | .ok none => messagesLoop message_type status rest
      | .ok (some msg) => (messagesLoop message_type status rest).map (msg :: ·)

/-- AgentCollaboration.get_messages: a non-200 listing response logs a
warning and returns the empty list; otherwise each listed entry is
processed by `messagesLoop`.  The listing body itself is assumed
JSON-parseable (the Graph API listing shape is not under test). -/
def get_messages (message_type status : Option String) (listStatus : Nat)
    (entries : List ListEntry) : Except PyErr (List AgentMessage) :=
  if listStatus ≠ 200 then .ok []
  else messagesLoop message_type status entries

/-- AgentCollaboration.get_pending_tasks. -/
def get_pending_tasks (listStatus : Nat) (entries : List ListEntry) :
    Except PyErr (List AgentMessage) :=
  get_messages (some "task") (some "pending") listStatus entries

/-- AgentCollaboration.complete_task: `result or {}` in the context
patch. -/
def complete_task (agent task_id : String) (result : Option Json) (now : String)
    (getStatus : Nat) (getBody : Option Json) (putStatus : Nat) :
    Except PyErr (Option AgentMessage) × List Request :=
  update_message_status task_id "completed"
    (some [("completed_by", .str agent), ("result", pyOrEmptyObj result)])
    now getStatus getBody putStatus

/-!
CLI adapter from `cli.py`, embedded for its exit-code behavior.  Parsed
flags are a record (argparse enforces `--priority` choices and `--limit`
integrality before `main`'s body runs; a parse failure exits 2 inside
argparse and is outside this model).  The collaboration calls the
dispatch makes are parameters (an `Oracle` field per operation), as is
the `json.loads` parser used for `--context`/`--result`.  A Python
exception escaping `main` makes the interpreter exit with code 1; the
model keeps the exception explicit and `cli_exit` folds it to 1.
-/

/-- Parsed argparse namespace for `cli.py`.  `Option String` fields are
`None` when the flag is absent. -/
structure CliArgs where
  operation : String
  title : Option String
  content : Option String
  status_text : Option String
  task_id : Option String
  priority : String
  context : Option String
  result : Option String
  limit : Int
  message_type : Option String
  status : Option String
  agent_id : Option String
  json : Bool

/-- Outcomes of the collaboration methods the CLI can invoke, supplied
to the dispatch model as data. -/
structure Oracle where
  post_task : Except PyErr AgentMessage
  post_status : Except PyErr AgentMessage
  post_message : Except PyErr AgentMessage
  post_handoff : Except PyErr AgentMessage
  get_messages : Except PyErr (List AgentMessage)
  get_pending_tasks : Except PyErr (List AgentMessage)
  claim_task : Except PyErr (Option AgentMessage)
  complete_task : Except PyErr (Option AgentMessage)

/-- Intermediate outcome of `main`'s operation dispatch: an early
`sys.exit(code)` on a missing required flag, or the `result` dict
reduced to its `success` field. -/
inductive CliStep where
  | exited : Nat → CliStep
  | result : Bool → CliStep
  deriving DecidableEq, Repr

/-- Python `json.loads(s) if s else None` for an optional flag value,
with `parse` standing for `json.loads` (`none` = raise). -/
def cliParseOptJson (parse : String → Option Json) (s : Option String) :
    Except PyErr (Option Json) :=
  match s with
  | some t =>
    if t = "" then .ok none
    else match parse t with
      | some j => .ok (some j)
      | none => .error .jsonDecodeError
  | none => .ok none

/-- Operation dispatch of `cli.py main`: flag validation (with
`sys.exit(1)` on a missing required flag), `--context`/`--result` JSON
parsing, the collaboration call, and the success flag of the `result`
dict.  Unknown operations produce `{"success": False, ...}` without
exiting. -/
def cli_dispatch (args : CliArgs) (parse : String → Option Json) (o : Oracle) :
    Except PyErr CliStep :=
  if args.operation = "post_task" then
    if !(pyTruthy args.title) then .ok (.exited 1)
    else match cliParseOptJson parse args.context with
      | .error e => .error e
      | .ok _ =>
        match o.post_task with
        | .error e => .error e
        | .ok _ => .ok (.result true)
  else if args.operation = "post_status" then
    if !(pyTruthy args.title) then .ok (.exited 1)
    else match o.post_status with
      | .error e => .error e
      | .ok _ => .ok (.result true)
  else if args.operation = "post_message" then
    if !(pyTruthy args.title) then .ok (.exited 1)
    else match cliParseOptJson parse args.context with
      | .error e => .error e
      | .ok _ =>
        match o.post_message with
        | .error e => .error e
        | .ok _ => .ok (.result true)
  else if args.operation = "post_handoff" then
    if !(pyTruthy args.title) || !(pyTruthy args.context) then .ok (.exited 1)
    else match parse ((args.context).getD "") with
      | none => .error .jsonDecodeError
      | some _ =>
        match o.post_handoff with
        | .error e => .error e
        | .ok _ => .ok (.result true)
  else if args.operation = "get_messages" then
    match o.get_messages with
    | .error e => .error e
    | .ok _ => .ok (.result true)
  else if args.operation = "get_pending_tasks" then
    match o.get_pending_tasks with
    | .error e => .error e
    | .ok _ => .ok (.result true)
  else if args.operation = "claim_task" then
    if !(pyTruthy args.task_id) then .ok (.exited 1)
    else match o.claim_task with
      | .error e => .error e
      | .ok (some _) => .ok (.result true)
      | .ok none => .ok (.result false)
  else if args.operation = "complete_task" then
    if !(pyTruthy args.task_id) then .ok (.exited 1)
    else match cliParseOptJson parse args.result with
      | .error e => .error e
      | .ok _ =>
        match o.complete_task with
        | .error e => .error e
        | .ok (some _) => .ok (.result true)
        | .ok none => .ok (.result false)
  else .ok (.result false)

/-- Process exit code of a `cli.py` invocation: 1 when a required
credential variable is missing; otherwise the dispatch runs, an escaped
exception exits 1, an early `sys.exit` returns its code, and the output
phase exits 0 after printing in JSON mode regardless of the success
flag, while the human-readable mode exits 1 on a failure result. -/
def cli_exit (args : CliArgs) (credsPresent : Bool)
    (parse : String → Option Json) (o : Oracle) : Nat :=
  if !credsPresent then 1
  else
    match cli_dispatch args parse o with
    | .error _ => 1
    | .ok (.exited c) => c
    | .ok (.result success) =>
      if args.json then 0
      else if success then 0 else 1

/-!
Characterization lemmas used by the claim theorems.
-/

theorem get_message_to_dict (mid : String) (m : AgentMessage) :
    get_message mid 200 (some m.to_dict) =
      (.ok (some m), [.getContent (normalizeFilename mid)]) := by
  simp [get_message, AgentMessage.from_dict_to_dict, Except.map]

theorem update_message_status_cons (mid st : String) (c : String × Json)
    (cs : List (String × Json)) (now : String) (m : AgentMessage)
    (d : List (String × Json)) (hm : m.context = .obj d) (put : Nat) :
    update_message_status mid st (some (c :: cs)) now 200 (some m.to_dict) put =
      (if put = 200 ∨ put = 201
       then .ok (some { m with
          status := .str st, timestamp := .str now,
          context := .obj (dictUpdate d (c :: cs)) })
       else .ok none,
       [.getContent (normalizeFilename mid), .putContent (normalizeFilename mid)]) := by
  have hget := get_message_to_dict mid m
  simp only [update_message_status, hget, hm]

/-- Entries whose download body is rejected by `json.loads`, or decodes
to a JSON object missing some required field, are exactly the ones the
`except (json.JSONDecodeError, KeyError)` handler covers. -/
def skippableBody (b : Option Json) : Prop :=
  b = none ∨ ∃ d k, b = some d ∧ AgentMessage.from_dict d = .error (.keyError k)

theorem messagesLoop_skip (mt st : Option String) (post : List ListEntry)
    (bad : ListEntry) (hbad : skippableBody bad.contentBody) :
    messagesLoop mt st (bad :: post) = messagesLoop mt st post := by
  simp only [messagesLoop]
  by_cases h1 : pyEndsWith bad.name ".json" = true
  swap
  · simp [h1]
  by_cases h2 : bad.hasDownloadUrl = true
  swap
  · simp [h1, h2]
  by_cases h3 : bad.contentStatus = 200
  swap
  · simp [h1, h2, h3]
  rcases hbad with hb | ⟨d, k, hb, hdec⟩
  · simp [h1, h2, h3, hb]
  · simp [h1, h2, h3, hb, hdec]

theorem messagesLoop_cons_congr (mt st : Option String) (e : ListEntry)
    (l1 l2 : List ListEntry)
    (h : messagesLoop mt st l1 = messagesLoop mt st l2) :
    messagesLoop mt st (e :: l1) = messagesLoop mt st (e :: l2) := by
  simp only [messagesLoop, h]

/-!
Claim theorems.
-/

/-- C1: for every valid message `m`, decoding the encoded form yields a
message equal to `m` (`from_dict(json.loads(json.dumps(to_dict(m)))) == m`,
with `loads ∘ dumps` the identity on JSON-representable values), and
decoding supplies the defaults `priority="normal"`, `status="pending"`,
`context={}`, `in_reply_to=None` when those fields are absent. -/
theorem claim_C1_roundtrip :
    (∀ m : AgentMessage, AgentMessage.from_dict m.to_dict = .ok m) ∧
    (∀ i ts ag mt ti co : Json,
      AgentMessage.from_dict (.obj [("id", i), ("timestamp", ts),
          ("agent_id", ag), ("message_type", mt), ("title", ti),
          ("content", co)]) =
        .ok ⟨i, ts, ag, mt, ti, co, .str "normal", .str "pending",
          .obj [], .null⟩) :=
  ⟨AgentMessage.from_dict_to_dict, fun _ _ _ _ _ _ => rfl⟩

/-- C4: a message returned by `post_message` has status `"pending"`
exactly when the `message_type` argument is `"task"`, and status
`"completed"` for every other `message_type`. -/
theorem claim_C4_post_status (agent msgId ts title content mt pr : String)
    (context : Option Json) (irt : Json) (ens put : Nat) (msg : AgentMessage)
    (h : (post_message agent msgId ts title content mt pr context irt ens put).1 =
      .ok msg) :
    (msg.status = .str "pending" ↔ mt = "task") ∧
    (mt ≠ "task" → msg.status = .str "completed") := by
  simp only [post_message] at h
  split at h
  · injection h with h
    subst h
    by_cases hmt : mt = "task" <;> simp [hmt]
  · exact absurd h (by simp)

/-- C4 witness: `post_message` with `message_type="task"` at concrete
arguments returns a message whose status satisfies the claim. -/
theorem claim_C4_post_status_witness :
    ((⟨.str "m1", .str "t0", .str "a1", .str "task", .str "T", .str "C",
        .str "normal", .str "pending", .obj [], .null⟩ : AgentMessage).status =
          .str "pending" ↔ "task" = "task") ∧
    ("task" ≠ "task" →
      (⟨.str "m1", .str "t0", .str "a1", .str "task", .str "T", .str "C",
        .str "normal", .str "pending", .obj [], .null⟩ : AgentMessage).status =
          .str "completed") :=
  claim_C4_post_status "a1" "m1" "t0" "T" "C" "task" "normal" none .null 201 201
    _ rfl

/-- C8 counterexample: `post_handoff` called with the `target_agent`
argument supplied as the empty string succeeds, but because the source
guards the assignment with Python truthiness (`if target_agent:`), the
returned message's context does not map `"target_agent"` at all —
contradicting the claim that a supplied `target_agent` always appears
in the context. -/
theorem claim_C8_counterexample :
    (post_handoff "a1" "m1" "t0" "T" "D" [("x", .num 1)] (some "") 201
        201).1 =
      .ok ⟨.str "m1", .str "t0", .str "a1", .str "handoff", .str "T",
        .str "D", .str "high", .str "completed", .obj [("x", .num 1)],
        .null⟩ ∧
    jlookup (Json.obj [("x", .num 1)]) "target_agent" = none :=
  ⟨rfl, rfl⟩

/-- C8 amended: every message returned by `post_handoff` has priority
`"high"`; when a non-empty `target_agent` is supplied the context maps
`"target_agent"` to it and all other keys of the caller's context are
preserved; when it is absent the context is the caller's context
unchanged. -/
theorem claim_C8_amended (agent msgId ts title desc : String)
    (context : List (String × Json)) (ta : Option String) (ens put : Nat)
    (msg : AgentMessage)
    (h : (post_handoff agent msgId ts title desc context ta ens put).1 =
      .ok msg) :
    msg.priority = .str "high" ∧
    (∀ t, ta = some t → t ≠ "" →
      jlookup msg.context "target_agent" = some (.str t) ∧
      ∀ k, k ≠ "target_agent" → jlookup msg.context k = context.lookup k) ∧
    (ta = none → msg.context = .obj context) := by
  simp only [post_handoff, post_message] at h
  split at h
  · injection h with h
    subst h
    refine ⟨rfl, ?_, ?_⟩
    · rintro t rfl hne
      simp only [pyOrEmptyObj_obj, jlookup, if_neg hne, lookup_dictInsert]
      exact ⟨by simp, fun k hk => by simp [hk]⟩
    · rintro rfl
      simp [pyOrEmptyObj_obj]
  · exact absurd h (by simp)

/-- C8 amended witness: a handoff with `target_agent="agent-2"` over a
one-key context at concrete arguments. -/
theorem claim_C8_amended_witness :
    (post_handoff "a1" "m1" "t0" "T" "D" [("x", .num 1)] (some "agent-2")
        201 201).1 =
      .ok ⟨.str "m1", .str "t0", .str "a1", .str "handoff", .str "T",
        .str "D", .str "high", .str "completed",
        .obj [("x", .num 1), ("target_agent", .str "agent-2")], .null⟩ ∧
    jlookup (Json.obj [("x", .num 1), ("target_agent", .str "agent-2")])
        "target_agent" = some (.str "agent-2") ∧
    jlookup (Json.obj [("x", .num 1), ("target_agent", .str "agent-2")])
        "x" = some (.num 1) :=
  ⟨rfl,
   ((claim_C8_amended "a1" "m1" "t0" "T" "D" [("x", .num 1)]
      (some "agent-2") 201 201 _ rfl).2.1 "agent-2" rfl (by decide)).1,
   by
    have := ((claim_C8_amended "a1" "m1" "t0" "T" "D" [("x", .num 1)]
      (some "agent-2") 201 201 _ rfl).2.1 "agent-2" rfl (by decide)).2 "x"
      (by decide)
    simpa using this⟩

/-- C10: for an id `X` not already ending in `".json"`, `get_message`
and `update_message_status` normalize `X` and `X ++ ".json"` to the same
store key, so both spellings read and mutate the same stored object and
behave identically. -/
theorem claim_C10_filename_normalization (X : String)
    (h : pyEndsWith X ".json" = false) :
    normalizeFilename X = normalizeFilename (X ++ ".json") ∧
    (∀ st body, get_message X st body = get_message (X ++ ".json") st body) ∧
    (∀ s cu now gs gb ps,
      update_message_status X s cu now gs gb ps =
        update_message_status (X ++ ".json") s cu now gs gb ps) := by
  have h1 : normalizeFilename X = X ++ ".json" := by
    simp [normalizeFilename, h]
  have h2 : normalizeFilename (X ++ ".json") = X ++ ".json" := by
    simp [normalizeFilename, pyEndsWith_append]
  refine ⟨h1.trans h2.symm, ?_, ?_⟩
  · intro st body
    simp only [get_message, h1, h2]
  · intro s cu now gs gb ps
    simp only [update_message_status, get_message, h1, h2]

/-- C10 witness: the id `"msg-1"` and its `".json"`-suffixed spelling
address the same key and give identical operations at concrete inputs. -/
theorem claim_C10_filename_normalization_witness :
    pyEndsWith "msg-1" ".json" = false ∧
    normalizeFilename "msg-1" = normalizeFilename ("msg-1" ++ ".json") ∧
    get_message "msg-1" 404 none = get_message ("msg-1" ++ ".json") 404 none ∧
    update_message_status "msg-1" "done" none "t1" 404 none 200 =
      update_message_status ("msg-1" ++ ".json") "done" none "t1" 404 none 200 :=
  ⟨by decide,
   (claim_C10_filename_normalization "msg-1" (by decide)).1,
   (claim_C10_filename_normalization "msg-1" (by decide)).2.1 404 none,
   (claim_C10_filename_normalization "msg-1" (by decide)).2.2 "done" none "t1"
     404 none 200⟩

/-- C6: when `update_message_status` succeeds on a stored message `m`,
the written-back message keeps `id`, `agent_id`, `message_type`,
`title`, `content`, `priority` and `in_reply_to` unchanged from the
fetched message, while `status` and `timestamp` are set to the new
status and the mutation time (and only `context` may change besides). -/
theorem claim_C6_update_frame (m : AgentMessage) (mid st : String)
    (cu : Option (List (String × Json))) (now : String) (ps : Nat)
    (m' : AgentMessage)
    (h : (update_message_status mid st cu now 200 (some m.to_dict) ps).1 =
      .ok (some m')) :
    m'.id = m.id ∧ m'.agent_id = m.agent_id ∧
    m'.message_type = m.message_type ∧ m'.title = m.title ∧
    m'.content = m.content ∧ m'.priority = m.priority ∧
    m'.in_reply_to = m.in_reply_to ∧
    m'.status = .str st ∧ m'.timestamp = .str now := by
  simp only [update_message_status, get_message_to_dict] at h
  rcases cu with _ | ⟨_ | ⟨c, cs⟩⟩
  · dsimp only at h
    split at h
    · injection h with h
      injection h with h
      subst h
      exact ⟨rfl, rfl, rfl, rfl, rfl, rfl, rfl, rfl, rfl⟩
    · exact absurd h (by simp)
  · dsimp only at h
    split at h
    · injection h with h
      injection h with h
      subst h
      exact ⟨rfl, rfl, rfl, rfl, rfl, rfl, rfl, rfl, rfl⟩
    · exact absurd h (by simp)
  · rcases hm : m.context with _ | _ | _ | _ | _ | d <;> rw [hm] at h
    case obj =>
      dsimp only at h
      split at h
      · injection h with h
        injection h with h
        subst h
        exact ⟨rfl, rfl, rfl, rfl, rfl, rfl, rfl, rfl, rfl⟩
      · exact absurd h (by simp)
    all_goals (dsimp only at h; exact absurd h (by simp))

/-- Concrete stored task used as input in C6's witness. -/
def cex6before : AgentMessage :=
  ⟨.str "m1", .str "t0", .str "a1", .str "task", .str "T", .str "C",
   .str "normal", .str "pending", .obj [], .null⟩

/-- Written-back message of C6's witness update. -/
def cex6after : AgentMessage :=
  ⟨.str "m1", .str "t1", .str "a1", .str "task", .str "T", .str "C",
   .str "normal", .str "in_progress", .obj [("claimed_by", .str "a2")], .null⟩

/-- C6 witness: a concrete status update with a context patch keeps all
identity fields of the stored message. -/
theorem claim_C6_update_frame_witness :
    cex6after.id = cex6before.id ∧
    cex6after.agent_id = cex6before.agent_id ∧
    cex6after.message_type = cex6before.message_type ∧
    cex6after.title = cex6before.title ∧
    cex6after.content = cex6before.content ∧
    cex6after.priority = cex6before.priority ∧
    cex6after.in_reply_to = cex6before.in_reply_to ∧
    cex6after.status = .str "in_progress" ∧
    cex6after.timestamp = .str "t1" :=
  claim_C6_update_frame cex6before "m1" "in_progress"
    (some [("claimed_by", .str "a2")]) "t1" 200 cex6after rfl

/-- C5: claiming a task and then completing it yields a message with
status `"completed"`, `context.completed_by` the completing agent,
`context.result` equal to the supplied result (`{}` when absent), and
`context.claimed_by` still present: the context patch is a shallow merge
that overwrites or adds keys but never deletes any key of the original
context. -/
theorem claim_C5_claim_then_complete (m0 : AgentMessage)
    (c0 : List (String × Json)) (agentA agentB tid claimedAt now1 now2 : String)
    (r : Option Json) (hc : m0.context = .obj c0) :
    ∃ m1 m2,
      (claim_task agentA tid claimedAt now1 200 (some m0.to_dict) 200).1 =
        .ok (some m1) ∧
      (complete_task agentB tid r now2 200 (some m1.to_dict) 200).1 =
        .ok (some m2) ∧
      m2.status = .str "completed" ∧
      jlookup m2.context "completed_by" = some (.str agentB) ∧
      jlookup m2.context "result" = some (pyOrEmptyObj r) ∧
      jlookup m2.context "claimed_by" = some (.str agentA) ∧
      (∀ k, (c0.lookup k).isSome → (jlookup m2.context k).isSome) := by
  have hd1 : dictUpdate c0 [("claimed_by", .str agentA),
      ("claimed_at", .str claimedAt)] =
      dictInsert (dictInsert c0 "claimed_by" (.str agentA)) "claimed_at"
        (.str claimedAt) := rfl
  have h2 : dictUpdate
      (dictUpdate c0 [("claimed_by", .str agentA),
        ("claimed_at", .str claimedAt)])
      [("completed_by", .str agentB), ("result", pyOrEmptyObj r)] =
      dictInsert (dictInsert (dictUpdate c0 [("claimed_by", .str agentA),
        ("claimed_at", .str claimedAt)]) "completed_by" (.str agentB))
        "result" (pyOrEmptyObj r) := rfl
  refine ⟨⟨m0.id, .str now1, m0.agent_id, m0.message_type, m0.title,
      m0.content, m0.priority, .str "in_progress",
      .obj (dictUpdate c0 [("claimed_by", .str agentA),
        ("claimed_at", .str claimedAt)]), m0.in_reply_to⟩,
    ⟨m0.id, .str now2, m0.agent_id, m0.message_type, m0.title,
      m0.content, m0.priority, .str "completed",
      .obj (dictUpdate
        (dictUpdate c0 [("claimed_by", .str agentA),
          ("claimed_at", .str claimedAt)])
        [("completed_by", .str agentB), ("result", pyOrEmptyObj r)]),
      m0.in_reply_to⟩,
    ?_, ?_, rfl, ?_, ?_, ?_, ?_⟩
  · rw [claim_task, update_message_status_cons _ _ _ _ _ m0 c0 hc]
    simp
  · rw [complete_task, update_message_status_cons _ _ _ _ _ _
      (dictUpdate c0 [("claimed_by", .str agentA),
        ("claimed_at", .str claimedAt)]) rfl]
    simp
  · simp [jlookup, h2, lookup_dictInsert]
  · simp [jlookup, h2, lookup_dictInsert]
  · simp only [jlookup, h2]
    simp [lookup_dictInsert, hd1]
  · intro k hk
    simp only [jlookup]
    exact isSome_lookup_dictUpdate _ _ _ (isSome_lookup_dictUpdate _ _ _ hk)

/-- Concrete pending task used as input in C5's witness. -/
def cex5task : AgentMessage :=
  ⟨.str "m1", .str "t0", .str "a1", .str "task", .str "T", .str "C",
   .str "normal", .str "pending", .obj [("note", .str "n")], .null⟩

/-- C5 witness: the claim-then-complete lifecycle at concrete inputs,
with result `{"ok": true}` and an original context key surviving both
merges. -/
theorem claim_C5_claim_then_complete_witness :
    cex5task.context = .obj [("note", .str "n")] ∧
    ∃ m1 m2,
      (claim_task "a2" "m1" "tc" "t1" 200 (some cex5task.to_dict) 200).1 =
        .ok (some m1) ∧
      (complete_task "a3" "m1" (some (.obj [("ok", .bool true)])) "t2" 200
        (some m1.to_dict) 200).1 = .ok (some m2) ∧
      m2.status = .str "completed" ∧
      jlookup m2.context "completed_by" = some (.str "a3") ∧
      jlookup m2.context "result" =
        some (pyOrEmptyObj (some (.obj [("ok", .bool true)]))) ∧
      jlookup m2.context "claimed_by" = some (.str "a2") ∧
      (∀ k, (([("note", .str "n")] : List (String × Json)).lookup k).isSome →
        (jlookup m2.context k).isSome) :=
  ⟨rfl, claim_C5_claim_then_complete cex5task [("note", .str "n")] "a2" "a3"
    "m1" "tc" "t1" "t2" (some (.obj [("ok", .bool true)])) rfl⟩

/-- C3 counterexample: `update_message_status` performs a store write
(`putContent`) without ever issuing the ensure-container step — its
request trace at a concrete successful update is exactly a content GET
followed by a content PUT, with no `ensureFolder` request, contradicting
the claim that every writing operation ensures the container first. -/
theorem claim_C3_counterexample :
    (update_message_status "m1" "in_progress" none "t1" 200
        (some (AgentMessage.to_dict ⟨.str "m1", .str "t0", .str "a1",
          .str "task", .str "T", .str "C", .str "normal", .str "pending",
          .obj [], .null⟩)) 200).2 =
      [.getContent "m1.json", .putContent "m1.json"] ∧
    Request.ensureFolder ∉
      [Request.getContent "m1.json", Request.putContent "m1.json"] ∧
    Request.putContent "m1.json" ∈
      [Request.getContent "m1.json", Request.putContent "m1.json"] :=
  ⟨rfl, by decide, by decide⟩

/-- C3 amended: `post_message` (hence also `post_task`, `post_status`
and `post_handoff`) issues the ensure-container step before its write,
its outcome does not depend on the ensure step's response status, and
the "already exists" (409) outcome produces no warning; but
`update_message_status` (hence also `claim_task` and `complete_task`)
writes without any ensure-container step. -/
theorem claim_C3_amended :
    (∀ agent msgId ts title content mt pr ctx irt ens put,
      (post_message agent msgId ts title content mt pr ctx irt ens put).2 =
        [.ensureFolder, .putContent (msgId ++ ".json")]) ∧
    (∀ agent msgId ts title content mt pr ctx irt ens ens' put,
      post_message agent msgId ts title content mt pr ctx irt ens put =
        post_message agent msgId ts title content mt pr ctx irt ens' put) ∧
    ensure_folder_warns 409 = false ∧
    ensure_folder_warns 201 = false ∧
    (∀ mid st cu now gs gb ps,
      Request.ensureFolder ∉ (update_message_status mid st cu now gs gb ps).2) := by
  refine ⟨fun _ _ _ _ _ _ _ _ _ _ _ => rfl,
    fun _ _ _ _ _ _ _ _ _ _ _ _ => rfl, by decide, by decide, ?_⟩
  intro mid st cu now gs gb ps
  simp only [update_message_status]
  split
  · simp
  · simp
  · split
    · simp
    · simp

/-- C2 counterexample: two store failures that are converted into
normal-looking successes.  A non-200 listing response makes
`get_messages` return the ordinary empty list (only a warning is
logged), and a failed (500) write-back makes `update_message_status`
return `None`, indistinguishable from the absent-message result —
contradicting the claim that every non-2xx store response surfaces as an
error to the caller. -/
theorem claim_C2_counterexample :
    get_messages none none 500 [] = .ok [] ∧
    (update_message_status "m1" "in_progress" none "t1" 200
        (some (AgentMessage.to_dict ⟨.str "m1", .str "t0", .str "a1",
          .str "task", .str "T", .str "C", .str "normal", .str "pending",
          .obj [], .null⟩)) 500).1 = .ok none :=
  ⟨rfl, rfl⟩

/-- C2 amended: only `post_message` surfaces a non-2xx store response as
an error (`RuntimeError`); `get_message` returns the absent-message
result on a non-200 GET, `get_messages` returns the empty list on a
non-200 listing, and `update_message_status` never returns a message
when the write-back status is outside {200, 201}. -/
theorem claim_C2_amended :
    (∀ agent msgId ts title content mt pr ctx irt ens put,
      ¬(put = 200 ∨ put = 201) →
      (post_message agent msgId ts title content mt pr ctx irt ens put).1 =
        .error (.runtimeError "Failed to post message")) ∧
    (∀ mid gs body, gs ≠ 200 → (get_message mid gs body).1 = .ok none) ∧
    (∀ mt st ls entries, ls ≠ 200 →
      get_messages mt st ls entries = .ok []) ∧
    (∀ mid st cu now gs gb ps m', ¬(ps = 200 ∨ ps = 201) →
      (update_message_status mid st cu now gs gb ps).1 ≠ .ok (some m')) := by
  refine ⟨?_, ?_, ?_, ?_⟩
  · intro agent msgId ts title content mt pr ctx irt ens put hput
    simp [post_message, hput]
  · intro mid gs body hgs
    simp [get_message, hgs]
  · intro mt st ls entries hls
    simp [get_messages, hls]
  · intro mid st cu now gs gb ps m' hps
    simp only [update_message_status]
    split
    · simp
    · simp
    · split
      · simp
      · simp [hps]

/-- C2 amended witness: the four behaviors at concrete non-2xx
statuses. -/
theorem claim_C2_amended_witness :
    (¬((500 : Nat) = 200 ∨ (500 : Nat) = 201) ∧
      (post_message "a1" "m1" "t0" "T" "C" "message" "normal" none .null
        201 500).1 = .error (.runtimeError "Failed to post message")) ∧
    ((404 : Nat) ≠ 200 ∧ (get_message "m1" 404 none).1 = .ok none) ∧
    ((503 : Nat) ≠ 200 ∧ get_messages none none 503 [] = .ok []) ∧
    (update_message_status "m1" "done" none "t1" 404 none 500).1 ≠
      .ok (some ⟨.str "m1", .str "t0", .str "a1", .str "task", .str "T",
        .str "C", .str "normal", .str "pending", .obj [], .null⟩) :=
  ⟨⟨by decide, claim_C2_amended.1 "a1" "m1" "t0" "T" "C" "message" "normal"
      none .null 201 500 (by decide)⟩,
   ⟨by decide, claim_C2_amended.2.1 "m1" 404 none (by decide)⟩,
   ⟨by decide, claim_C2_amended.2.2.1 none none 503 [] (by decide)⟩,
   claim_C2_amended.2.2.2 "m1" "done" none "t1" 404 none 500
     ⟨.str "m1", .str "t0", .str "a1", .str "task", .str "T", .str "C",
      .str "normal", .str "pending", .obj [], .null⟩ (by decide)⟩

/-- C7 counterexample: a listing whose second entry contains well-formed
but non-object JSON (`[]`).  Reading `data["id"]` on a list raises
`TypeError`, which the per-item handler (`except (json.JSONDecodeError,
KeyError)`) does not catch, so the whole `get_messages` call aborts and
the decodable first entry is lost — contradicting the claim that any
undecodable entry is merely skipped. -/
theorem claim_C7_counterexample :
    get_messages none none 200
      [⟨"msg-1.json", true, 200,
        some (AgentMessage.to_dict ⟨.str "msg-1", .str "t0", .str "a1",
          .str "message", .str "T", .str "C", .str "normal",
          .str "completed", .obj [], .null⟩)⟩,
       ⟨"msg-2.json", true, 200, some (.arr [])⟩] =
      .error .typeError :=
  rfl

/-- C7 amended: an entry whose content is invalid JSON, or decodes to a
JSON object missing a required field, is skipped (the caught
`JSONDecodeError`/`KeyError` cases): removing such an entry from the
listing leaves the result of `get_messages` unchanged, so these entries
never abort the call and all remaining decodable entries are still
returned.  (A well-formed non-object entry instead aborts the call, per
the counterexample.) -/
theorem claim_C7_amended (mt st : Option String) (pre post : List ListEntry)
    (bad : ListEntry) (hbad : skippableBody bad.contentBody) :
    get_messages mt st 200 (pre ++ bad :: post) =
      get_messages mt st 200 (pre ++ post) := by
  simp only [get_messages, if_neg (by simp : ¬(200 : Nat) ≠ 200)]
  induction pre with
  | nil => exact messagesLoop_skip mt st post bad hbad
  | cons e t ih => exact messagesLoop_cons_congr mt st e _ _ ih

/-- C7 amended witness: removing a malformed entry (an object missing
every required field) from a two-entry listing leaves the result — the
one decodable message — unchanged. -/
theorem claim_C7_amended_witness :
    skippableBody (some (Json.obj [("x", .num 1)])) ∧
    get_messages none none 200
      [⟨"msg-1.json", true, 200,
        some (AgentMessage.to_dict ⟨.str "msg-1", .str "t0", .str "a1",
          .str "message", .str "T", .str "C", .str "normal",
          .str "completed", .obj [], .null⟩)⟩,
       ⟨"msg-bad.json", true, 200, some (Json.obj [("x", .num 1)])⟩] =
      get_messages none none 200
      [⟨"msg-1.json", true, 200,
        some (AgentMessage.to_dict ⟨.str "msg-1", .str "t0", .str "a1",
          .str "message", .str "T", .str "C", .str "normal",
          .str "completed", .obj [], .null⟩)⟩] :=
  ⟨Or.inr ⟨Json.obj [("x", .num 1)], "id", rfl, rfl⟩,
   claim_C7_amended none none
     [⟨"msg-1.json", true, 200,
        some (AgentMessage.to_dict ⟨.str "msg-1", .str "t0", .str "a1",
          .str "message", .str "T", .str "C", .str "normal",
          .str "completed", .obj [], .null⟩)⟩]
     []
     ⟨"msg-bad.json", true, 200, some (Json.obj [("x", .num 1)])⟩
     (Or.inr ⟨Json.obj [("x", .num 1)], "id", rfl, rfl⟩)⟩

/-- Parsed CLI flags for an unknown operation in JSON output mode, with
all optional flags absent and argparse defaults for the rest. -/
def cexArgs9 : CliArgs :=
  ⟨"frobnicate", none, none, none, none, "normal", none, none, 20, none,
   none, none, true⟩

/-- The same invocation in human-readable output mode. -/
def cexArgs9h : CliArgs :=
  ⟨"frobnicate", none, none, none, none, "normal", none, none, 20, none,
   none, none, false⟩

/-- Parsed `post_task` invocation missing the required `--title` flag,
JSON output mode. -/
def cexArgs9t : CliArgs :=
  ⟨"post_task", none, none, none, none, "normal", none, none, 20, none,
   none, none, true⟩

/-- Parsed `get_messages` invocation, JSON output mode. -/
def cexArgs9g : CliArgs :=
  ⟨"get_messages", none, none, none, none, "normal", none, none, 20, none,
   none, none, true⟩

/-- Collaboration outcomes where every call raises. -/
def cexOracle9 : Oracle :=
  ⟨.error .typeError, .error .typeError, .error .typeError,
   .error .typeError, .error .typeError, .error .typeError,
   .error .typeError, .error .typeError⟩

/-- Collaboration outcomes where `get_messages` succeeds with an empty
listing and no other call is reached. -/
def okOracle9 : Oracle :=
  ⟨.error .typeError, .error .typeError, .error .typeError,
   .error .typeError, .ok [], .error .typeError,
   .error .typeError, .error .typeError⟩

/-- C9 counterexample: with credentials present, an unknown operation in
JSON output mode prints the `{"success": false, ...}` payload and the
process exits with code 0 — the `sys.exit(1)` for failure results sits
only in the human-readable output branch of `main` — contradicting the
claim of exit code 1 on any error regardless of output mode. -/
theorem claim_C9_counterexample :
    cli_dispatch cexArgs9 (fun _ => none) cexOracle9 = .ok (.result false) ∧
    cli_exit cexArgs9 true (fun _ => none) cexOracle9 = 0 :=
  ⟨rfl, rfl⟩

/-- C9 amended: the CLI exits 1 on missing credentials and on a missing
required flag in both output modes, exits 1 when an exception escapes
the dispatch, and exits 0 on a success result; but a failure result
(unknown operation, or task-not-found) exits 1 only in human-readable
mode and exits 0 in JSON output mode. -/
theorem claim_C9_amended (args : CliArgs) (parse : String → Option Json)
    (o : Oracle) :
    cli_exit args false parse o = 1 ∧
    (args.operation = "post_task" → pyTruthy args.title = false →
      cli_exit args true parse o = 1) ∧
    (args.operation = "claim_task" → pyTruthy args.task_id = false →
      cli_exit args true parse o = 1) ∧
    (args.operation ≠ "post_task" → args.operation ≠ "post_status" →
     args.operation ≠ "post_message" → args.operation ≠ "post_handoff" →
     args.operation ≠ "get_messages" → args.operation ≠ "get_pending_tasks" →
     args.operation ≠ "claim_task" → args.operation ≠ "complete_task" →
      cli_exit args true parse o = if args.json then 0 else 1) ∧
    (∀ e, cli_dispatch args parse o = .error e →
      cli_exit args true parse o = 1) ∧
    (cli_dispatch args parse o = .ok (.result true) →
      cli_exit args true parse o = 0) ∧
    (cli_dispatch args parse o = .ok (.result false) →
      cli_exit args true parse o = if args.json then 0 else 1) := by
  refine ⟨by simp [cli_exit], ?_, ?_, ?_, ?_, ?_, ?_⟩
  · intro h1 h2
    simp [cli_exit, cli_dispatch, h1, h2]
  · intro h1 h2
    simp [cli_exit, cli_dispatch, h1, h2]
  · intro h1 h2 h3 h4 h5 h6 h7 h8
    simp [cli_exit, cli_dispatch, h1, h2, h3, h4, h5, h6, h7, h8]
  · intro e he
    simp [cli_exit, he]
  · intro hd
    simp [cli_exit, hd]
  · intro hd
    simp [cli_exit, hd]

/-- C9 amended witness: missing `--title` exits 1 even in JSON mode; an
unknown operation exits 1 in human-readable mode and 0 in JSON mode; a
successful `get_messages` exits 0; missing credentials exit 1. -/
theorem claim_C9_amended_witness :
    cli_exit cexArgs9t true (fun _ => none) cexOracle9 = 1 ∧
    cli_exit cexArgs9h true (fun _ => none) cexOracle9 = 1 ∧
    cli_exit cexArgs9 true (fun _ => none) cexOracle9 = 0 ∧
    cli_exit cexArgs9g true (fun _ => none) okOracle9 = 0 ∧
    cli_exit cexArgs9g false (fun _ => none) okOracle9 = 1 :=
  ⟨(claim_C9_amended cexArgs9t (fun _ => none) cexOracle9).2.1 rfl rfl,
   by
    have := (claim_C9_amended cexArgs9h (fun _ => none) cexOracle9).2.2.2.1
      (by decide) (by decide) (by decide) (by decide) (by decide)
      (by decide) (by decide) (by decide)
    simpa [cexArgs9h] using this,
   by
    have := (claim_C9_amended cexArgs9 (fun _ => none) cexOracle9).2.2.2.1
      (by decide) (by decide) (by decide) (by decide) (by decide)
      (by decide) (by decide) (by decide)
    simpa [cexArgs9] using this,
   (claim_C9_amended cexArgs9g (fun _ => none) okOracle9).2.2.2.2.2.1 rfl,
   (claim_C9_amended cexArgs9g (fun _ => none) okOracle9).1⟩
